import Mathlib

/-!
Shallow embedding of `vpcctl.py` (Linux VPC management tool) and proofs about
its topology state machine, identifier derivation, addressing planner and
directive orchestration.

Machine integers are modelled as `Nat` with explicit reduction modulo `2 ^ 32`
(respectively `2 ^ 64`, `256`) where the original arithmetic is fixed-width.
-/

set_option maxRecDepth 1000000

namespace Vpcctl

/-! ### MD5 (the hash used by `hashlib.md5(...).hexdigest()` in the source)

The source derives short interface identifiers by hashing name strings with
MD5 and truncating the hex digest.  We embed MD5 itself so that identifier
(in)equalities are facts about the real derivation, not about an abstract
hash. -/

/-- 32-bit truncation. -/
def m32 (x : Nat) : Nat := x % 4294967296

/-- 32-bit left rotation (input assumed `< 2 ^ 32`). -/
def rotl32 (x n : Nat) : Nat := m32 (x * 2 ^ n + x / 2 ^ (32 - n))

/-- Bitwise complement on 32 bits. -/
def not32 (x : Nat) : Nat := Nat.xor x 4294967295

/-- The 64 MD5 sine-derived round constants. -/
def md5K : List Nat :=
  [0xd76aa478, 0xe8c7b756, 0x242070db, 0xc1bdceee,
   0xf57c0faf, 0x4787c62a, 0xa8304613, 0xfd469501,
   0x698098d8, 0x8b44f7af, 0xffff5bb1, 0x895cd7be,
   0x6b901122, 0xfd987193, 0xa679438e, 0x49b40821,
   0xf61e2562, 0xc040b340, 0x265e5a51, 0xe9b6c7aa,
   0xd62f105d, 0x02441453, 0xd8a1e681, 0xe7d3fbc8,
   0x21e1cde6, 0xc33707d6, 0xf4d50d87, 0x455a14ed,
   0xa9e3e905, 0xfcefa3f8, 0x676f02d9, 0x8d2a4c8a,
   0xfffa3942, 0x8771f681, 0x6d9d6122, 0xfde5380c,
   0xa4beea44, 0x4bdecfa9, 0xf6bb4b60, 0xbebfbc70,
   0x289b7ec6, 0xeaa127fa, 0xd4ef3085, 0x04881d05,
   0xd9d4d039, 0xe6db99e5, 0x1fa27cf8, 0xc4ac5665,
   0xf4292244, 0x432aff97, 0xab9423a7, 0xfc93a039,
   0x655b59c3, 0x8f0ccc92, 0xffeff47d, 0x85845dd1,
   0x6fa87e4f, 0xfe2ce6e0, 0xa3014314, 0x4e0811a1,
   0xf7537e82, 0xbd3af235, 0x2ad7d2bb, 0xeb86d391]

/-- The 64 MD5 per-round left-rotation amounts. -/
def md5S : List Nat :=
  [7, 12, 17, 22, 7, 12, 17, 22, 7, 12, 17, 22, 7, 12, 17, 22,
   5, 9, 14, 20, 5, 9, 14, 20, 5, 9, 14, 20, 5, 9, 14, 20,
   4, 11, 16, 23, 4, 11, 16, 23, 4, 11, 16, 23, 4, 11, 16, 23,
   6, 10, 15, 21, 6, 10, 15, 21, 6, 10, 15, 21, 6, 10, 15, 21]

/-- One MD5 round: state `(a, b, c, d)`, message words `m`, round index `i`. -/
def md5Round (m : List Nat) (st : Nat × Nat × Nat × Nat) (i : Nat) :
    Nat × Nat × Nat × Nat :=
  let a := st.1
  let b := st.2.1
  let c := st.2.2.1
  let d := st.2.2.2
  let fg : Nat × Nat :=
    if i < 16 then (Nat.lor (Nat.land b c) (Nat.land (not32 b) d), i)
    else if i < 32 then (Nat.lor (Nat.land d b) (Nat.land (not32 d) c), (5 * i + 1) % 16)
    else if i < 48 then (Nat.xor (Nat.xor b c) d, (3 * i + 5) % 16)
    else (Nat.xor c (Nat.lor b (not32 d)), (7 * i) % 16)
  let fv := m32 (fg.1 + a + md5K.getD i 0 + m.getD fg.2 0)
  (d, m32 (b + rotl32 fv (md5S.getD i 0)), b, c)

/-- Decode a 64-byte chunk into 16 little-endian 32-bit words. -/
def md5Words : List Nat → List Nat
  | b0 :: b1 :: b2 :: b3 :: rest =>
      (b0 + 256 * b1 + 65536 * b2 + 16777216 * b3) :: md5Words rest
  | _ => []

/-- Process one 64-byte chunk, updating the running digest state. -/
def md5Chunk (st : Nat × Nat × Nat × Nat) (chunk : List Nat) :
    Nat × Nat × Nat × Nat :=
  let m := md5Words chunk
  let r := (List.range 64).foldl (md5Round m) st
  (m32 (st.1 + r.1), m32 (st.2.1 + r.2.1), m32 (st.2.2.1 + r.2.2.1),
   m32 (st.2.2.2 + r.2.2.2))

/-- Split a byte list into 64-byte chunks (structural recursion on a fuel
bound that always suffices, so the definition reduces in the kernel). -/
def chunks64Aux : Nat → List Nat → List (List Nat)
  | 0, _ => []
  | _, [] => []
  | n + 1, l => l.take 64 :: chunks64Aux n (l.drop 64)

/-- Split a byte list into 64-byte chunks. -/
def chunks64 (l : List Nat) : List (List Nat) :=
  chunks64Aux (l.length / 64 + 1) l

/-- MD5 padding: append `0x80`, zeros to 56 mod 64, then the 64-bit
little-endian bit length. -/
def md5Pad (msg : List Nat) : List Nat :=
  let len := msg.length
  let zeros := (119 - len % 64) % 64
  let bitLen := (8 * len) % 2 ^ 64
  msg ++ [0x80] ++ List.replicate zeros 0 ++
    (List.range 8).map (fun i => bitLen / 256 ^ i % 256)

/-- Serialize one 32-bit word as 4 little-endian bytes. -/
def wordBytes (w : Nat) : List Nat :=
  [w % 256, w / 256 % 256, w / 65536 % 256, w / 16777216 % 256]

/-- The 16 digest bytes of the MD5 of a byte list. -/
def md5Bytes (msg : List Nat) : List Nat :=
  let st := (chunks64 (md5Pad msg)).foldl md5Chunk
    (0x67452301, 0xefcdab89, 0x98badcfe, 0x10325476)
  wordBytes st.1 ++ wordBytes st.2.1 ++ wordBytes st.2.2.1 ++ wordBytes st.2.2.2

/-- Lower-case hex digit. -/
def hexDigit (n : Nat) : Char :=
  if n < 10 then Char.ofNat (48 + n) else Char.ofNat (87 + n)

/-- Lower-case hex string of a byte list (`hexdigest()` in the source). -/
def hexOfBytes (bs : List Nat) : String :=
  String.mk ((bs.map (fun b => [hexDigit (b / 16), hexDigit (b % 16)])).flatten)

/-- UTF-8 encoding of one Unicode code point. -/
def utf8Bytes (c : Nat) : List Nat :=
  if c < 0x80 then [c]
  else if c < 0x800 then [0xC0 + c / 64, 0x80 + c % 64]
  else if c < 0x10000 then [0xE0 + c / 4096, 0x80 + c / 64 % 64, 0x80 + c % 64]
  else [0xF0 + c / 262144, 0x80 + c / 4096 % 64, 0x80 + c / 64 % 64, 0x80 + c % 64]

/-- UTF-8 bytes of a string (`str.encode()` in the source). -/
def strBytes (s : String) : List Nat :=
  (s.data.map (fun ch => utf8Bytes ch.toNat)).flatten

/-- `hashlib.md5(s.encode()).hexdigest()` for a string `s`. -/
def md5Hex (s : String) : String := hexOfBytes (md5Bytes (strBytes s))

/-- Character-count slicing, `s[:n]` in the source. -/
def strTake (s : String) (n : Nat) : String := String.mk (s.data.take n)

/-- ASCII upper-casing, `str.upper()` in the source (the policies in scope use
ASCII action names). -/
def strUpper (s : String) : String := String.mk (s.data.map Char.toUpper)

/-! ### IPv4 networks (model of the stdlib `ipaddress` calls in the source)

`ipaddress.ip_network(s)` with the default `strict=True`: parses a dotted
quad with an optional `/prefixlen`, rejects malformed input, leading zeros
and set host bits.  Addresses are `Nat` below `2 ^ 32`.  The alternative
netmask/hostmask prefix spellings accepted by the stdlib are not used by the
tool's documented CLI inputs and are not modelled. -/

structure Net where
  addr : Nat
  prefixLen : Nat
  deriving DecidableEq, Repr

/-- Split a character list at every occurrence of `sep`. -/
def splitChar (sep : Char) : List Char → List (List Char)
  | [] => [[]]
  | c :: cs =>
    let r := splitChar sep cs
    if c = sep then [] :: r
    else
      match r with
      | h :: t => (c :: h) :: t
      | [] => [[c]]

/-- Decimal digit test. -/
def isDigitCh (c : Char) : Bool := 48 ≤ c.toNat && c.toNat ≤ 57

/-- Value of a decimal digit list. -/
def digitsVal (l : List Char) : Nat := l.foldl (fun a c => 10 * a + (c.toNat - 48)) 0

/-- Parse a decimal field: nonempty, digits only, no leading zero
(as the stdlib parser enforces for octets and prefix lengths). -/
def parseDec (l : List Char) : Option Nat :=
  if l ≠ [] && l.all isDigitCh && (l.length = 1 || l.headD ' ' ≠ '0') then
    some (digitsVal l)
  else none

/-- Parse a dotted quad into a 32-bit address. -/
def parseQuad (l : List Char) : Option Nat :=
  match splitChar '.' l with
  | [o1, o2, o3, o4] =>
    match parseDec o1, parseDec o2, parseDec o3, parseDec o4 with
    | some a, some b, some c, some d =>
      if a ≤ 255 && b ≤ 255 && c ≤ 255 && d ≤ 255 then
        some (16777216 * a + 65536 * b + 256 * c + d)
      else none
    | _, _, _, _ => none
  | _ => none

/-- `ipaddress.ip_network(s)` (strict): `none` models the `ValueError` raised
on malformed input or set host bits; a bare address gets prefix length 32. -/
def ipNetwork (s : String) : Option Net :=
  match splitChar '/' s.data with
  | [a] =>
    match parseQuad a with
    | some v => some ⟨v, 32⟩
    | none => none
  | [a, p] =>
    match parseQuad a, parseDec p with
    | some v, some pl =>
      if pl ≤ 32 && v % 2 ^ (32 - pl) = 0 then some ⟨v, pl⟩ else none
    | _, _ => none
  | _ => none

/-- Number of addresses in the block. -/
def hostSize (n : Net) : Nat := 2 ^ (32 - n.prefixLen)

/-- Number of entries of `network.hosts()`: all addresses for /31 and /32
(RFC 3021 semantics of the stdlib), otherwise all but network and broadcast. -/
def usableCount (n : Net) : Nat :=
  if 31 ≤ n.prefixLen then hostSize n else hostSize n - 2

/-- `list(network.hosts())[k]`: the k-th usable host address, `none` models
the `IndexError` when the list is too short. -/
def hostsGet (n : Net) (k : Nat) : Option Nat :=
  if k < usableCount n then
    some (n.addr + (if 31 ≤ n.prefixLen then k else k + 1))
  else none

/-- `str(IPv4Address(v))`: dotted-quad rendering. -/
def ipStr (v : Nat) : String :=
  toString (v / 16777216 % 256) ++ "." ++ toString (v / 65536 % 256) ++ "." ++
    toString (v / 256 % 256) ++ "." ++ toString (v % 256)

/-- The Addressing Planner as used by `add_subnet` (source lines 123-125):
the first two usable host addresses of the block. -/
def planAddresses (n : Net) : Option (Nat × Nat) :=
  match hostsGet n 0, hostsGet n 1 with
  | some a, some b => some (a, b)
  | _, _ => none

/-- An address lies inside the block. -/
def inBlock (n : Net) (v : Nat) : Prop :=
  n.addr ≤ v ∧ v < n.addr + hostSize n

/-- An address is a usable host address of the block: inside it, and (below
/31) neither the network nor the broadcast address. -/
def usable (n : Net) (v : Nat) : Prop :=
  inBlock n v ∧ (31 ≤ n.prefixLen ∨ (v ≠ n.addr ∧ v ≠ n.addr + hostSize n - 1))

instance (n : Net) (v : Nat) : Decidable (inBlock n v) := by
  unfold inBlock; infer_instance

instance (n : Net) (v : Nat) : Decidable (usable n v) := by
  unfold usable inBlock; infer_instance

/-! ### Data model (the persisted Topology Store, `~/.vpcctl/vpcs.json`) -/

/-- One subnet record, as stored under `vpc["subnets"][name]`.
`ty` is the JSON key `type`, `nsName` the JSON key `namespace` (both Lean
keywords). -/
structure Subnet where
  cidr : String
  ty : String
  nsName : String
  ip : String
  gateway : String
  veth_host : String
  veth_ns : String
  deriving DecidableEq, Repr

/-- One VPC record, as stored under `state["vpcs"][name]`. -/
structure VPC where
  cidr : String
  bridge : String
  bridge_ip : String
  internet_interface : String
  subnets : List (String × Subnet)
  deriving DecidableEq, Repr

/-- The persisted store `{"vpcs": {...}}`; insertion-ordered association
lists model Python dicts. -/
structure Store where
  vpcs : List (String × VPC)
  deriving DecidableEq, Repr

/-- Dict lookup. -/
def alookup {α : Type} (k : String) : List (String × α) → Option α
  | [] => none
  | (k2, v) :: t => if k = k2 then some v else alookup k t

/-- Dict assignment `d[k] = v`: overwrite in place, else append. -/
def aset {α : Type} (k : String) (v : α) : List (String × α) → List (String × α)
  | [] => [(k, v)]
  | (k2, v2) :: t => if k = k2 then (k, v) :: t else (k2, v2) :: aset k v t

/-- Dict deletion `del d[k]`. -/
def aerase {α : Type} (k : String) : List (String × α) → List (String × α)
  | [] => []
  | (k2, v2) :: t => if k = k2 then t else (k2, v2) :: aerase k t

/-! ### Directives and the Effector

A directive is one shell command handed to `_run_cmd`; `check` records
whether a failure raises (`check=True`, abort-on-error) or is swallowed
(`check=False`, best-effort).  An effector decides success of the i-th
issued command; quantifying over effectors quantifies over all outcome
patterns of a run. -/

structure Directive where
  cmd : String
  check : Bool
  deriving DecidableEq, Repr

/-- Outcome oracle for issued directives: position and command to success. -/
def Eff : Type := Nat → String → Bool

/-- The all-success effector. -/
def effOk : Eff := fun _ _ => true

/-- Run a directive sequence through `_run_cmd` starting at issue index `i`:
returns the directives actually issued, the next index, and the failing
abort-on-error directive if one stopped the sequence. -/
def runSeq (eff : Eff) (i : Nat) : List Directive → List Directive × Nat × Option Directive
  | [] => ([], i, none)
  | d :: ds =>
    if d.check && !(eff i d.cmd) then ([d], i + 1, some d)
    else
      let r := runSeq eff (i + 1) ds
      (d :: r.1, r.2.1, r.2.2)

/-- Error taxonomy: printed-and-return precondition failures
(`AlreadyExists`/`NotFound`), stdlib `ValueError`/`IndexError` from CIDR
handling (`invalidBlock`), and the exception raised by a failed
abort-on-error command (`directiveFailed`). -/
inductive Err where
  | alreadyExists
  | notFound
  | invalidBlock
  | directiveFailed (cmd : String)
  deriving DecidableEq, Repr

/-- Result of one operation. -/
inductive OpResult where
  | ok
  | err (e : Err)
  deriving DecidableEq, Repr

/-- One operation's observable effect: the store afterwards, the directives
issued (in order), and the result. -/
structure Outcome where
  store : Store
  issued : List Directive
  result : OpResult
  deriving DecidableEq, Repr

/-! ### Operations (the Orchestrator) -/

/-- The five directives of `create_vpc` issued before the CIDR is parsed
(source lines 62-71). -/
def createVpcPlan1 (bridge : String) : List Directive :=
  [⟨"ip link add " ++ bridge ++ " type bridge", true⟩,
   ⟨"ip link set " ++ bridge ++ " up", true⟩,
   ⟨"echo 1 > /proc/sys/net/bridge/bridge-nf-call-iptables", false⟩,
   ⟨"iptables -A FORWARD -i " ++ bridge ++ " -o " ++ bridge ++ " -j ACCEPT", false⟩,
   ⟨"iptables -A FORWARD -i " ++ bridge ++ " ! -o " ++ bridge ++ " -j DROP", false⟩]

/-- The two directives of `create_vpc` issued after the CIDR is parsed
(source lines 76-79). -/
def createVpcPlan2 (bridge bridge_ip : String) (plen : Nat) : List Directive :=
  [⟨"ip addr add " ++ bridge_ip ++ "/" ++ toString plen ++ " dev " ++ bridge, true⟩,
   ⟨"sysctl -w net.ipv4.ip_forward=1", true⟩]

/-- `create_vpc` (source lines 51-91). -/
def create_vpc (st : Store) (eff : Eff)
    (vpc_name cidr_block internet_interface : String) : Outcome :=
  if (alookup vpc_name st.vpcs).isSome then ⟨st, [], .err .alreadyExists⟩
  else
    let bridge := "br-" ++ vpc_name
    let r1 := runSeq eff 0 (createVpcPlan1 bridge)
    match r1.2.2 with
    | some d => ⟨st, r1.1, .err (.directiveFailed d.cmd)⟩
    | none =>
      match ipNetwork cidr_block with
      | none => ⟨st, r1.1, .err .invalidBlock⟩
      | some net =>
        match hostsGet net 0 with
        | none => ⟨st, r1.1, .err .invalidBlock⟩
        | some bip =>
          let bridge_ip := ipStr bip
          let r2 := runSeq eff r1.2.1 (createVpcPlan2 bridge bridge_ip net.prefixLen)
          match r2.2.2 with
          | some d => ⟨st, r1.1 ++ r2.1, .err (.directiveFailed d.cmd)⟩
          | none =>
            ⟨⟨aset vpc_name ⟨cidr_block, bridge, bridge_ip, internet_interface, []⟩ st.vpcs⟩,
             r1.1 ++ r2.1, .ok⟩

/-- Identifier derivation of `add_subnet` (source lines 100-105): namespace
name and the two veth endpoint names from the md5 of the concatenated
names. -/
def subnetIds (vpc_name subnet_name : String) : String × String × String :=
  let h := strTake (md5Hex (vpc_name ++ subnet_name)) 6
  (vpc_name ++ "-" ++ subnet_name, "vh" ++ h, "vn" ++ h)

/-- The NAT sub-procedure `_setup_nat` (source lines 155-169). -/
def natPlan (vpc : VPC) (subnet_cidr : String) : List Directive :=
  [⟨"iptables -t nat -A POSTROUTING -s " ++ subnet_cidr ++ " -o " ++
      vpc.internet_interface ++ " -j MASQUERADE", true⟩,
   ⟨"iptables -A FORWARD -i " ++ vpc.bridge ++ " -o " ++
      vpc.internet_interface ++ " -j ACCEPT", true⟩,
   ⟨"iptables -A FORWARD -o " ++ vpc.bridge ++ " -i " ++
      vpc.internet_interface ++ " -j ACCEPT", true⟩]

/-- The five directives of `add_subnet` issued before the CIDR is parsed
(source lines 110-120). -/
def addSubnetPlan1 (ns_name veth_host veth_ns bridge : String) : List Directive :=
  [⟨"ip netns add " ++ ns_name, true⟩,
   ⟨"ip link add " ++ veth_host ++ " type veth peer name " ++ veth_ns, true⟩,
   ⟨"ip link set " ++ veth_ns ++ " netns " ++ ns_name, true⟩,
   ⟨"ip link set " ++ veth_host ++ " master " ++ bridge, true⟩,
   ⟨"ip link set " ++ veth_host ++ " up", true⟩]

/-- The five directives of `add_subnet` issued after the CIDR is parsed
(source lines 127-135); for public subnets the NAT sub-procedure follows. -/
def addSubnetPlan2 (ns_name veth_ns bridge subnet_ip subnet_gateway : String)
    (plen : Nat) : List Directive :=
  [⟨"ip netns exec " ++ ns_name ++ " ip link set lo up", true⟩,
   ⟨"ip netns exec " ++ ns_name ++ " ip addr add " ++ subnet_ip ++ "/" ++
      toString plen ++ " dev " ++ veth_ns, true⟩,
   ⟨"ip netns exec " ++ ns_name ++ " ip link set " ++ veth_ns ++ " up", true⟩,
   ⟨"ip addr add " ++ subnet_gateway ++ "/" ++ toString plen ++ " dev " ++ bridge, true⟩,
   ⟨"ip netns exec " ++ ns_name ++ " ip route add default via " ++ subnet_gateway, true⟩]

/-- `add_subnet` (source lines 93-153).  Note: the source checks only that
the VPC exists; there is no duplicate-subnet-name precondition. -/
def add_subnet (st : Store) (eff : Eff)
    (vpc_name subnet_name subnet_cidr subnet_type : String) : Outcome :=
  match alookup vpc_name st.vpcs with
  | none => ⟨st, [], .err .notFound⟩
  | some vpc =>
    let ids := subnetIds vpc_name subnet_name
    let ns_name := ids.1
    let veth_host := ids.2.1
    let veth_ns := ids.2.2
    let r1 := runSeq eff 0 (addSubnetPlan1 ns_name veth_host veth_ns vpc.bridge)
    match r1.2.2 with
    | some d => ⟨st, r1.1, .err (.directiveFailed d.cmd)⟩
    | none =>
      match ipNetwork subnet_cidr with
      | none => ⟨st, r1.1, .err .invalidBlock⟩
      | some net =>
        match planAddresses net with
        | none => ⟨st, r1.1, .err .invalidBlock⟩
        | some addrs =>
          let subnet_ip := ipStr addrs.1
          let subnet_gateway := ipStr addrs.2
          let r2 := runSeq eff r1.2.1
            (addSubnetPlan2 ns_name veth_ns vpc.bridge subnet_ip subnet_gateway
              net.prefixLen ++
             (if subnet_type = "public" then natPlan vpc subnet_cidr else []))
          match r2.2.2 with
          | some d => ⟨st, r1.1 ++ r2.1, .err (.directiveFailed d.cmd)⟩
          | none =>
            let sub : Subnet :=
              ⟨subnet_cidr, subnet_type, ns_name, subnet_ip, subnet_gateway,
               veth_host, veth_ns⟩
            ⟨⟨aset vpc_name {vpc with subnets := aset subnet_name sub vpc.subnets} st.vpcs⟩,
             r1.1 ++ r2.1, .ok⟩

/-- Peering identifier derivation (source lines 181-183): md5 of the two
VPC names concatenated in argument order, truncated to 6 hex characters. -/
def peerIds (vpc1_name vpc2_name : String) : String × String :=
  let h := strTake (md5Hex (vpc1_name ++ vpc2_name)) 6
  ("pr1" ++ h, "pr2" ++ h)

/-- `peer_vpcs` (source lines 171-210). -/
def peer_vpcs (st : Store) (eff : Eff) (vpc1_name vpc2_name : String) : Outcome :=
  match alookup vpc1_name st.vpcs, alookup vpc2_name st.vpcs with
  | some vpc1, some vpc2 =>
    let p := peerIds vpc1_name vpc2_name
    let plan : List Directive :=
      [⟨"ip link del " ++ p.1, false⟩,
       ⟨"ip link del " ++ p.2, false⟩,
       ⟨"ip link add " ++ p.1 ++ " type veth peer name " ++ p.2, true⟩,
       ⟨"ip link set " ++ p.1 ++ " master " ++ vpc1.bridge, true⟩,
       ⟨"ip link set " ++ p.1 ++ " up", true⟩,
       ⟨"ip link set " ++ p.2 ++ " master " ++ vpc2.bridge, true⟩,
       ⟨"ip link set " ++ p.2 ++ " up", true⟩,
       ⟨"ip route replace " ++ vpc2.cidr ++ " dev " ++ vpc1.bridge, true⟩,
       ⟨"ip route replace " ++ vpc1.cidr ++ " dev " ++ vpc2.bridge, true⟩,
       ⟨"iptables -I FORWARD -i " ++ vpc1.bridge ++ " -o " ++ vpc2.bridge ++
          " -j ACCEPT", false⟩,
       ⟨"iptables -I FORWARD -i " ++ vpc2.bridge ++ " -o " ++ vpc1.bridge ++
          " -j ACCEPT", false⟩]
    let r := runSeq eff 0 plan
    match r.2.2 with
    | some d => ⟨st, r.1, .err (.directiveFailed d.cmd)⟩
    | none => ⟨st, r.1, .ok⟩
  | _, _ => ⟨st, [], .err .notFound⟩

/-- One ingress rule of a firewall policy document. -/
structure FwRule where
  port : Nat
  protocol : String
  action : String
  deriving DecidableEq, Repr

/-- A policy document; `ingress = none` models a JSON object without the
`"ingress"` key (`policy.get("ingress", [])` then yields `[]`). -/
structure Policy where
  ingress : Option (List FwRule)
  deriving DecidableEq, Repr

/-- The packet-filter directive for one ingress rule (source lines 232-242). -/
def fwRuleCmd (ns_name : String) (r : FwRule) : Directive :=
  if strUpper r.action = "ALLOW" then
    ⟨"ip netns exec " ++ ns_name ++ " iptables -A INPUT -p " ++ r.protocol ++
       " --dport " ++ toString r.port ++ " -j ACCEPT", true⟩
  else
    ⟨"ip netns exec " ++ ns_name ++ " iptables -A INPUT -p " ++ r.protocol ++
       " --dport " ++ toString r.port ++ " -j DROP", true⟩

/-- `apply_firewall` (source lines 212-245); the policy document stands for
the parsed contents of the policy file. -/
def apply_firewall (st : Store) (eff : Eff)
    (vpc_name subnet_name : String) (policy : Policy) : Outcome :=
  match alookup vpc_name st.vpcs with
  | none => ⟨st, [], .err .notFound⟩
  | some vpc =>
    match alookup subnet_name vpc.subnets with
    | none => ⟨st, [], .err .notFound⟩
    | some sub =>
      let plan := (policy.ingress.getD []).map (fwRuleCmd sub.nsName)
      let r := runSeq eff 0 plan
      match r.2.2 with
      | some d => ⟨st, r.1, .err (.directiveFailed d.cmd)⟩
      | none => ⟨st, r.1, .ok⟩

/-- Per-subnet teardown directives of `delete_vpc` (source lines 272-280). -/
def deleteSubnetPlan (subs : List (String × Subnet)) : List Directive :=
  (subs.map (fun p =>
    [⟨"ip netns del " ++ p.2.nsName, false⟩,
     ⟨"ip link del " ++ p.2.veth_host, false⟩])).flatten

/-- NAT teardown directives of `delete_vpc` (source lines 283-288). -/
def deleteNatPlan (vpc : VPC) : List Directive :=
  (vpc.subnets.filter (fun p => p.2.ty = "public")).map
    (fun p => ⟨"iptables -t nat -D POSTROUTING -s " ++ p.2.cidr ++ " -o " ++
      vpc.internet_interface ++ " -j MASQUERADE", false⟩)

/-- The full teardown sequence of `delete_vpc` (source lines 272-295);
every directive is best-effort. -/
def deleteVpcPlan (vpc : VPC) : List Directive :=
  deleteSubnetPlan vpc.subnets ++ deleteNatPlan vpc ++
    [⟨"iptables -D FORWARD -i " ++ vpc.bridge ++ " -o " ++ vpc.bridge ++
        " -j ACCEPT", false⟩,
     ⟨"iptables -D FORWARD -i " ++ vpc.bridge ++ " ! -o " ++ vpc.bridge ++
        " -j DROP", false⟩,
     ⟨"ip link del " ++ vpc.bridge, false⟩]

/-- `delete_vpc` (source lines 261-301): all teardown directives are
best-effort (`check=False`), so none can raise; the record is removed
afterwards unconditionally. -/
def delete_vpc (st : Store) (eff : Eff) (vpc_name : String) : Outcome :=
  match alookup vpc_name st.vpcs with
  | none => ⟨st, [], .err .notFound⟩
  | some vpc =>
    let r := runSeq eff 0 (deleteVpcPlan vpc)
    ⟨⟨aerase vpc_name st.vpcs⟩, r.1, .ok⟩

/-! ### Concrete fixtures (stores reached by actual runs of the tool) -/

/-- The initial store (`{"vpcs": {}}`). -/
def st0 : Store := ⟨[]⟩

/-- The effector on which every directive fails. -/
def effNone : Eff := fun _ _ => false

/-- The effector failing exactly the first issued directive. -/
def effButFirst : Eff := fun i _ => decide (0 < i)

/-- Store after `create-vpc app1 10.0.0.0/16`. -/
def stA : Store := (create_vpc st0 effOk "app1" "10.0.0.0/16" "eth0").store

/-- Store after additionally `add-subnet app1 web 10.0.1.0/24 --type public`. -/
def stAW : Store := (add_subnet stA effOk "app1" "web" "10.0.1.0/24" "public").store

/-- The VPC record of `app1` in `stA`. -/
def vpcA : VPC := (alookup "app1" stA.vpcs).getD ⟨"", "", "", "", []⟩

/-- The VPC record of `app1` in `stAW`. -/
def vpcAW : VPC := (alookup "app1" stAW.vpcs).getD ⟨"", "", "", "", []⟩

/-- The subnet record of `web` in `stAW`. -/
def subW : Subnet := (alookup "web" vpcAW.subnets).getD ⟨"", "", "", "", "", "", ""⟩

/-! ### Lemmas about the directive runner and the store dictionaries -/

/-- Sanity check of the MD5 embedding against the RFC 1321 test vector. -/
theorem md5Hex_testVector : md5Hex "abc" = "900150983cd24fb0d6963f7d28e17f72" := by
  decide

/-- Sanity check of the CIDR parser: strictness and malformed input. -/
theorem ipNetwork_sanity :
    ipNetwork "10.0.1.0/24" = some ⟨167772416, 24⟩ ∧
    ipNetwork "bad" = none ∧ ipNetwork "10.0.0.1/24" = none ∧
    ipStr 167772417 = "10.0.1.1" := by
  refine ⟨by decide, by decide, by decide, by decide⟩

theorem effOk_true : ∀ i c, effOk i c = true := fun _ _ => rfl

theorem runSeq_all_true (eff : Eff) (h : ∀ i c, eff i c = true) (i : Nat)
    (ds : List Directive) : runSeq eff i ds = (ds, i + ds.length, none) := by
  induction ds generalizing i with
  | nil => simp [runSeq]
  | cons d t ih => simp [runSeq, h, ih]; omega

theorem runSeq_cons_pos (eff : Eff) (i : Nat) (d : Directive) (t : List Directive)
    (hc : (d.check && !(eff i d.cmd)) = true) :
    runSeq eff i (d :: t) = ([d], i + 1, some d) := by
  simp [runSeq, hc]

theorem runSeq_cons_neg (eff : Eff) (i : Nat) (d : Directive) (t : List Directive)
    (hc : (d.check && !(eff i d.cmd)) = false) :
    runSeq eff i (d :: t) =
      (d :: (runSeq eff (i + 1) t).1, (runSeq eff (i + 1) t).2.1,
        (runSeq eff (i + 1) t).2.2) := by
  simp [runSeq, hc]

theorem runSeq_nocheck (eff : Eff) (i : Nat) (ds : List Directive)
    (h : ∀ d ∈ ds, d.check = false) : runSeq eff i ds = (ds, i + ds.length, none) := by
  induction ds generalizing i with
  | nil => simp [runSeq]
  | cons d t ih =>
    have hd : d.check = false := h d (by simp)
    have ht := ih (i + 1) (fun e he => h e (List.mem_cons_of_mem _ he))
    rw [runSeq_cons_neg eff i d t (by simp [hd]), ht]
    simp
    omega

theorem runSeq_issued_isPrefix (eff : Eff) (i : Nat) (ds : List Directive) :
    (runSeq eff i ds).1 <+: ds := by
  induction ds generalizing i with
  | nil => simp [runSeq]
  | cons d t ih =>
    cases hc : (d.check && !(eff i d.cmd)) with
    | true =>
      rw [runSeq_cons_pos eff i d t hc]
      exact ⟨t, rfl⟩
    | false =>
      rw [runSeq_cons_neg eff i d t hc]
      obtain ⟨t2, ht⟩ := ih (i + 1)
      exact ⟨t2, by rw [List.cons_append, ht]⟩

theorem runSeq_fail (eff : Eff) (i : Nat) (ds : List Directive) (d : Directive)
    (h : (runSeq eff i ds).2.2 = some d) :
    d.check = true ∧ (runSeq eff i ds).1.getLast? = some d := by
  induction ds generalizing i with
  | nil => simp [runSeq] at h
  | cons e t ih =>
    cases hc : (e.check && !(eff i e.cmd)) with
    | true =>
      rw [runSeq_cons_pos eff i e t hc] at h ⊢
      obtain rfl : e = d := by simpa using h
      exact ⟨(Bool.and_eq_true _ _ |>.mp hc).1, rfl⟩
    | false =>
      rw [runSeq_cons_neg eff i e t hc] at h ⊢
      obtain ⟨hch, hlast⟩ := ih (i + 1) h
      refine ⟨hch, ?_⟩
      have hne : (runSeq eff (i + 1) t).1 ≠ [] := by
        intro he; rw [he] at hlast; simp at hlast
      rw [show e :: (runSeq eff (i + 1) t).1 = [e] ++ (runSeq eff (i + 1) t).1 from rfl,
        List.getLast?_append_of_ne_nil _ hne]
      exact hlast

theorem runSeq_none (eff : Eff) (i : Nat) (ds : List Directive)
    (h : (runSeq eff i ds).2.2 = none) :
    (runSeq eff i ds).1 = ds ∧ (runSeq eff i ds).2.1 = i + ds.length := by
  induction ds generalizing i with
  | nil => simp [runSeq]
  | cons e t ih =>
    cases hc : (e.check && !(eff i e.cmd)) with
    | true => rw [runSeq_cons_pos eff i e t hc] at h; simp at h
    | false =>
      rw [runSeq_cons_neg eff i e t hc] at h ⊢
      obtain ⟨h1, h2⟩ := ih (i + 1) h
      refine ⟨by rw [h1], by rw [h2]; simp; omega⟩

theorem isPrefix_append_both {α : Type} {a b : List α} (l : List α) (h : a <+: b) :
    l ++ a <+: l ++ b := by
  obtain ⟨t, ht⟩ := h
  exact ⟨t, by simp [← ht]⟩

theorem alookup_not_mem {α : Type} (k : String) (l : List (String × α))
    (h : k ∉ l.map Prod.fst) : alookup k l = none := by
  induction l with
  | nil => rfl
  | cons p t ih =>
    obtain ⟨k2, v⟩ := p
    simp only [List.map_cons, List.mem_cons] at h
    push_neg at h
    simp [alookup, h.1, ih h.2]

theorem alookup_aerase_self {α : Type} (k : String) (l : List (String × α))
    (h : (l.map Prod.fst).Nodup) : alookup k (aerase k l) = none := by
  induction l with
  | nil => rfl
  | cons p t ih =>
    obtain ⟨k2, v⟩ := p
    simp only [List.map_cons, List.nodup_cons] at h
    by_cases hk : k = k2
    · subst hk
      simpa [aerase] using alookup_not_mem k t h.1
    · simp [aerase, hk, alookup, ih h.2]

theorem alookup_aset_self {α : Type} (k : String) (v : α) (l : List (String × α)) :
    alookup k (aset k v l) = some v := by
  induction l with
  | nil => simp [aset, alookup]
  | cons p t ih =>
    obtain ⟨k2, w⟩ := p
    by_cases hk : k = k2 <;> simp [aset, hk, alookup, ih]

/-! ### Claim theorems -/

/-- C1 (counterexample): the peering endpoint identifier derivation is NOT
order-independent: `peer a b` and `peer b a` hash the concatenations `"ab"`
and `"ba"`, whose md5 digests differ already in the first 6 hex characters,
so the derived endpoint names differ. -/
theorem C1_counterexample : peerIds "a" "b" ≠ peerIds "b" "a" := by decide

/-- C1 (amended): the derived peering endpoint identifiers are a
deterministic function of the concatenation of the two VPC names in argument
order (no canonical reordering happens before hashing); `Peer(A,B)` and
`Peer(B,A)` derive identical identifiers exactly when the two concatenations
agree (e.g. `A = B`), not for every pair. -/
theorem C1_theorem : ∀ v1 v2 w1 w2 : String, v1 ++ v2 = w1 ++ w2 →
    peerIds v1 v2 = peerIds w1 w2 := by
  intro v1 v2 w1 w2 h
  simp [peerIds, h]

/-- C1 (witness): concrete instance of the amended claim: equal
concatenations yield equal derived peering identifiers. -/
theorem C1_witness : peerIds "ap" "p1" = peerIds "a" "pp1" :=
  C1_theorem "ap" "p1" "a" "pp1" rfl

/-- C9 (counterexample): subnet identifier derivation is NOT injective in
the pair: the distinct pairs `("a","bc")` and `("ab","c")` have equal
concatenations, hence identical derived veth endpoint identifiers. -/
theorem C9_counterexample :
    (("a", "bc") : String × String) ≠ ("ab", "c") ∧
    (subnetIds "a" "bc").2.1 = (subnetIds "ab" "c").2.1 ∧
    (subnetIds "a" "bc").2.2 = (subnetIds "ab" "c").2.2 := by
  refine ⟨by decide, by decide, by decide⟩

/-- C9 (amended): the derivation is deterministic; the namespace identifier
is the two names joined with a hyphen, and the virtual-link endpoint
identifiers depend only on the concatenation of the two names, so distinct
pairs with equal concatenation receive identical link endpoint identifiers
(the derivation is not injective in the pair). -/
theorem C9_theorem :
    (∀ v s, (subnetIds v s).1 = v ++ "-" ++ s) ∧
    (∀ v1 s1 v2 s2 : String, v1 ++ s1 = v2 ++ s2 →
      (subnetIds v1 s1).2 = (subnetIds v2 s2).2) := by
  constructor
  · intro v s; rfl
  · intro v1 s1 v2 s2 h
    simp [subnetIds, h]

/-- C9 (witness): concrete instances of both parts of the amended claim. -/
theorem C9_witness :
    (subnetIds "app1" "web").1 = "app1" ++ "-" ++ "web" ∧
    (subnetIds "a" "bc").2 = (subnetIds "ab" "c").2 :=
  ⟨C9_theorem.1 "app1" "web", C9_theorem.2 "a" "bc" "ab" "c" rfl⟩

/-- C6: every precondition violation is reported before any directive is
issued: `create_vpc` on an existing name fails with `AlreadyExists`, and
`add_subnet`, `peer_vpcs`, `apply_firewall` and `delete_vpc` on a missing
VPC (or subnet) fail with `NotFound`; in every case the outcome carries an
empty directive list and the unchanged store. -/
theorem C6_theorem :
    (∀ st eff n cb ifc, (alookup n st.vpcs).isSome = true →
      create_vpc st eff n cb ifc = ⟨st, [], .err .alreadyExists⟩) ∧
    (∀ st eff v s cb ty, alookup v st.vpcs = none →
      add_subnet st eff v s cb ty = ⟨st, [], .err .notFound⟩) ∧
    (∀ st eff v1 v2, alookup v1 st.vpcs = none ∨ alookup v2 st.vpcs = none →
      peer_vpcs st eff v1 v2 = ⟨st, [], .err .notFound⟩) ∧
    (∀ st eff v s p, (alookup v st.vpcs = none ∨
        (∃ vpc, alookup v st.vpcs = some vpc ∧ alookup s vpc.subnets = none)) →
      apply_firewall st eff v s p = ⟨st, [], .err .notFound⟩) ∧
    (∀ st eff v, alookup v st.vpcs = none →
      delete_vpc st eff v = ⟨st, [], .err .notFound⟩) := by
  refine ⟨?_, ?_, ?_, ?_, ?_⟩
  · intro st eff n cb ifc h
    simp [create_vpc, h]
  · intro st eff v s cb ty h
    simp [add_subnet, h]
  · intro st eff v1 v2 h
    rcases h with h1 | h2
    · simp [peer_vpcs, h1]
    · cases hv1 : alookup v1 st.vpcs <;> simp [peer_vpcs, hv1, h2]
  · intro st eff v s p h
    rcases h with h1 | ⟨vpc, hv, hs⟩
    · simp [apply_firewall, h1]
    · simp [apply_firewall, hv, hs]
  · intro st eff v h
    simp [delete_vpc, h]

/-- C6 (witness): each precondition failure at a concrete input: duplicate
`create-vpc app1`, and operations referencing the missing VPC `ghost` or the
missing subnet `ghost` of `app1`. -/
theorem C6_witness :
    create_vpc stA effOk "app1" "10.9.0.0/16" "eth1" = ⟨stA, [], .err .alreadyExists⟩ ∧
    add_subnet st0 effOk "ghost" "web" "10.0.1.0/24" "private" = ⟨st0, [], .err .notFound⟩ ∧
    peer_vpcs stA effOk "app1" "ghost" = ⟨stA, [], .err .notFound⟩ ∧
    apply_firewall stA effOk "app1" "ghost" ⟨none⟩ = ⟨stA, [], .err .notFound⟩ ∧
    delete_vpc st0 effOk "ghost" = ⟨st0, [], .err .notFound⟩ :=
  ⟨C6_theorem.1 stA effOk "app1" "10.9.0.0/16" "eth1" (by decide),
   C6_theorem.2.1 st0 effOk "ghost" "web" "10.0.1.0/24" "private" (by decide),
   C6_theorem.2.2.1 stA effOk "app1" "ghost" (Or.inr (by decide)),
   C6_theorem.2.2.2.1 stA effOk "app1" "ghost" ⟨none⟩
     (Or.inr ⟨vpcA, by decide, by decide⟩),
   C6_theorem.2.2.2.2 st0 effOk "ghost" (by decide)⟩

/-- C10: applying a firewall policy whose document has no `ingress` key to an
existing VPC and subnet issues zero directives and still succeeds
(`policy.get("ingress", [])` defaults to the empty rule list). -/
theorem C10_theorem : ∀ st eff v s vpc sub,
    alookup v st.vpcs = some vpc → alookup s vpc.subnets = some sub →
    apply_firewall st eff v s ⟨none⟩ = ⟨st, [], .ok⟩ := by
  intro st eff v s vpc sub hv hs
  simp [apply_firewall, hv, hs, runSeq]

/-- C10 (witness): the empty policy document applied to `app1/web`, with an
effector on which every directive would fail — none is issued. -/
theorem C10_witness :
    apply_firewall stAW effNone "app1" "web" ⟨none⟩ = ⟨stAW, [], .ok⟩ :=
  C10_theorem stAW effNone "app1" "web" vpcAW subW (by decide) (by decide)

theorem deleteSubnetPlan_nocheck (subs : List (String × Subnet)) :
    ∀ d ∈ deleteSubnetPlan subs, d.check = false := by
  induction subs with
  | nil => intro d hd; cases hd
  | cons p t ih =>
    intro d hd
    rw [deleteSubnetPlan, List.map_cons, List.flatten_cons] at hd
    rcases List.mem_append.mp hd with hd | hd
    · cases hd with
      | head => rfl
      | tail _ hd2 =>
        cases hd2 with
        | head => rfl
        | tail _ hd3 => cases hd3
    · exact ih d hd

theorem deleteNatPlan_nocheck (vpc : VPC) : ∀ d ∈ deleteNatPlan vpc, d.check = false := by
  intro d hd
  rw [deleteNatPlan] at hd
  obtain ⟨p, _, rfl⟩ := List.mem_map.mp hd
  rfl

theorem deleteVpcPlan_nocheck (vpc : VPC) : ∀ d ∈ deleteVpcPlan vpc, d.check = false := by
  intro d hd
  rw [deleteVpcPlan] at hd
  rcases List.mem_append.mp hd with hd | hd
  · rcases List.mem_append.mp hd with hd | hd
    · exact deleteSubnetPlan_nocheck vpc.subnets d hd
    · exact deleteNatPlan_nocheck vpc d hd
  · cases hd with
    | head => rfl
    | tail _ h2 =>
      cases h2 with
      | head => rfl
      | tail _ h3 =>
        cases h3 with
        | head => rfl
        | tail _ h4 => cases h4

/-- C7: for every VPC present in the store and EVERY effector outcome
pattern (in particular, arbitrarily many failing cleanup directives),
`delete_vpc` issues the complete teardown sequence, reports success, and
removes exactly the VPC's record from the store; the record removal happens
in the success continuation after the whole sequence has been attempted,
which is witnessed by the issued list always being the full plan. -/
theorem C7_theorem : ∀ st eff v vpc, alookup v st.vpcs = some vpc →
    (delete_vpc st eff v).result = .ok ∧
    (delete_vpc st eff v).issued = deleteVpcPlan vpc ∧
    (delete_vpc st eff v).store = ⟨aerase v st.vpcs⟩ ∧
    ((st.vpcs.map Prod.fst).Nodup →
      alookup v (delete_vpc st eff v).store.vpcs = none) := by
  intro st eff v vpc h
  have hr := runSeq_nocheck eff 0 (deleteVpcPlan vpc) (deleteVpcPlan_nocheck vpc)
  refine ⟨by simp [delete_vpc, h, hr], by simp [delete_vpc, h, hr],
    by simp [delete_vpc, h, hr], fun hn => ?_⟩
  simp [delete_vpc, h, hr]
  exact alookup_aerase_self v st.vpcs hn

/-- C7 (witness): deleting `app1` (which owns subnet `web`) under the
effector on which every cleanup directive fails still issues the full
teardown plan, succeeds, and removes the record. -/
theorem C7_witness :
    (delete_vpc stAW effNone "app1").result = .ok ∧
    (delete_vpc stAW effNone "app1").issued = deleteVpcPlan vpcAW ∧
    (delete_vpc stAW effNone "app1").store = ⟨aerase "app1" stAW.vpcs⟩ ∧
    alookup "app1" (delete_vpc stAW effNone "app1").store.vpcs = none :=
  have h := C7_theorem stAW effNone "app1" vpcAW (by decide)
  ⟨h.1, h.2.1, h.2.2.1, h.2.2.2 (by decide)⟩

/-- C8: on an existing VPC and subnet, with every directive succeeding,
applying a policy with ingress list `rules` issues exactly the per-rule
packet-filter append directives, one per rule in list order, inside the
subnet's namespace; each appends (`-A INPUT`) an ACCEPT rule when the rule's
action upper-cases to `ALLOW` and a DROP rule otherwise, for the rule's
protocol and port.  No flush/clear directive exists in the plan, the store
is unchanged, and re-applying the same policy issues the identical appends
again (rules accumulate). -/
theorem C8_theorem : ∀ st eff v s vpc sub rules,
    alookup v st.vpcs = some vpc → alookup s vpc.subnets = some sub →
    (∀ i c, eff i c = true) →
    (apply_firewall st eff v s ⟨some rules⟩).issued = rules.map (fwRuleCmd sub.nsName) ∧
    (apply_firewall st eff v s ⟨some rules⟩).issued.length = rules.length ∧
    (apply_firewall st eff v s ⟨some rules⟩).result = .ok ∧
    (apply_firewall st eff v s ⟨some rules⟩).store = st ∧
    (∀ r, fwRuleCmd sub.nsName r =
      ⟨"ip netns exec " ++ sub.nsName ++ " iptables -A INPUT -p " ++ r.protocol ++
         " --dport " ++ toString r.port ++
         (if strUpper r.action = "ALLOW" then " -j ACCEPT" else " -j DROP"), true⟩) ∧
    apply_firewall (apply_firewall st eff v s ⟨some rules⟩).store eff v s ⟨some rules⟩ =
      apply_firewall st eff v s ⟨some rules⟩ := by
  intro st eff v s vpc sub rules hv hs heff
  have hr := runSeq_all_true eff heff 0 (rules.map (fwRuleCmd sub.nsName))
  have ho : apply_firewall st eff v s ⟨some rules⟩ =
      ⟨st, rules.map (fwRuleCmd sub.nsName), .ok⟩ := by
    simp [apply_firewall, hv, hs, hr]
  refine ⟨by rw [ho], by rw [ho]; simp, by rw [ho], by rw [ho], ?_,
    by rw [ho]; exact ho⟩
  intro r
  unfold fwRuleCmd
  split <;> rfl

/-- C8 (witness): a two-rule policy (`allow tcp/80`, `deny udp/53`) applied
to `app1/web`: both appends are issued in order inside the `app1-web`
namespace, the first as ACCEPT, the second as DROP. -/
theorem C8_witness :
    (apply_firewall stAW effOk "app1" "web"
        ⟨some [⟨80, "tcp", "allow"⟩, ⟨53, "udp", "deny"⟩]⟩).issued =
      [⟨80, "tcp", "allow"⟩, ⟨53, "udp", "deny"⟩].map (fwRuleCmd subW.nsName) ∧
    (apply_firewall stAW effOk "app1" "web"
        ⟨some [⟨80, "tcp", "allow"⟩, ⟨53, "udp", "deny"⟩]⟩).issued.length = 2 ∧
    (apply_firewall stAW effOk "app1" "web"
        ⟨some [⟨80, "tcp", "allow"⟩, ⟨53, "udp", "deny"⟩]⟩).result = .ok ∧
    (apply_firewall stAW effOk "app1" "web"
        ⟨some [⟨80, "tcp", "allow"⟩, ⟨53, "udp", "deny"⟩]⟩).store = stAW :=
  have h := C8_theorem stAW effOk "app1" "web" vpcAW subW
    [⟨80, "tcp", "allow"⟩, ⟨53, "udp", "deny"⟩] (by decide) (by decide)
    (fun _ _ => rfl)
  ⟨h.1, h.2.1, h.2.2.1, h.2.2.2.1⟩

/-- C2 (counterexample): `add_subnet` on the existing pair
(`app1`, `web`) does NOT fail with `AlreadyExists` with zero directives and
an unchanged store: the source never checks for a duplicate subnet name. -/
theorem C2_counterexample :
    ¬ ((add_subnet stAW effOk "app1" "web" "10.0.2.0/24" "private").result =
         .err .alreadyExists ∧
       (add_subnet stAW effOk "app1" "web" "10.0.2.0/24" "private").issued = [] ∧
       (add_subnet stAW effOk "app1" "web" "10.0.2.0/24" "private").store = stAW) := by
  intro h
  exact absurd h.1 (by decide)

/-- C2 (amended): `add_subnet` has no duplicate-subnet-name precondition:
invoked on a VPC that already contains the subnet name (with a well-formed
CIDR and every directive succeeding) it reports success, issues a non-empty
directive sequence again, and overwrites the stored subnet record with the
new one. -/
theorem C2_theorem : ∀ st v s cb ty vpc net,
    alookup v st.vpcs = some vpc →
    (alookup s vpc.subnets).isSome = true →
    ipNetwork cb = some net →
    (planAddresses net).isSome = true →
    (add_subnet st effOk v s cb ty).result = .ok ∧
    (add_subnet st effOk v s cb ty).issued ≠ [] ∧
    ((alookup v (add_subnet st effOk v s cb ty).store.vpcs).bind
        (fun w => alookup s w.subnets)).map Subnet.cidr = some cb := by
  intro st v s cb ty vpc net hv hs hn hp
  obtain ⟨addrs, haddrs⟩ := Option.isSome_iff_exists.mp hp
  refine ⟨?_, ?_, ?_⟩ <;>
    simp [add_subnet, hv, hn, haddrs, runSeq_all_true effOk effOk_true,
      addSubnetPlan1, alookup_aset_self]

/-- C2 (witness): re-adding subnet `web` to `app1` with a fresh CIDR
succeeds, issues directives, and replaces the stored record's CIDR. -/
theorem C2_witness :
    (add_subnet stAW effOk "app1" "web" "10.0.2.0/24" "private").result = .ok ∧
    (add_subnet stAW effOk "app1" "web" "10.0.2.0/24" "private").issued ≠ [] ∧
    ((alookup "app1"
        (add_subnet stAW effOk "app1" "web" "10.0.2.0/24" "private").store.vpcs).bind
      (fun w => alookup "web" w.subnets)).map Subnet.cidr = some "10.0.2.0/24" :=
  C2_theorem stAW "app1" "web" "10.0.2.0/24" "private" vpcAW ⟨167772672, 24⟩
    (by decide) (by decide) (by decide) (by decide)

/-- C5 (counterexample): with a malformed CIDR, `create_vpc` does fail with
`InvalidBlock`, but NOT before any directive is issued: the bridge-creation
directives precede the CIDR parse, so the issued list is non-empty. -/
theorem C5_counterexample :
    (create_vpc st0 effOk "v" "bad" "eth0").result = .err .invalidBlock ∧
    (create_vpc st0 effOk "v" "bad" "eth0").issued ≠ [] := by
  refine ⟨by decide, by decide⟩

/-- C5 (amended): a malformed or too-small CIDR makes the operation fail
with `InvalidBlock` and leaves the store unchanged, but the failure is
reported only after the operation's initial setup directives (the five
bridge directives of `create_vpc`; the five namespace/veth directives of
`add_subnet`) have been issued, not before any directive. -/
theorem C5_theorem :
    (∀ st eff n cb ifc, alookup n st.vpcs = none →
      (∀ j c, eff j c = true) →
      (ipNetwork cb = none ∨ ∃ net, ipNetwork cb = some net ∧ hostsGet net 0 = none) →
      create_vpc st eff n cb ifc =
        ⟨st, createVpcPlan1 ("br-" ++ n), .err .invalidBlock⟩) ∧
    (∀ st eff vpc v s cb ty, alookup v st.vpcs = some vpc →
      (∀ j c, eff j c = true) →
      (ipNetwork cb = none ∨ ∃ net, ipNetwork cb = some net ∧ planAddresses net = none) →
      add_subnet st eff v s cb ty =
        ⟨st, addSubnetPlan1 (subnetIds v s).1 (subnetIds v s).2.1
          (subnetIds v s).2.2 vpc.bridge, .err .invalidBlock⟩) := by
  constructor
  · intro st eff n cb ifc hl heff hbad
    rcases hbad with hn | ⟨net, hnet, hh⟩
    · simp [create_vpc, hl, hn, runSeq_all_true eff heff]
    · simp [create_vpc, hl, hnet, hh, runSeq_all_true eff heff]
  · intro st eff vpc v s cb ty hv heff hbad
    rcases hbad with hn | ⟨net, hnet, hh⟩
    · simp [add_subnet, hv, hn, runSeq_all_true eff heff]
    · simp [add_subnet, hv, hnet, hh, runSeq_all_true eff heff]

/-- C5 (witness): the malformed CIDR `bad` on `create_vpc` and the
too-small block `10.0.1.0/32` (one usable host, two required) on
`add_subnet`, both failing with `InvalidBlock` after their five setup
directives. -/
theorem C5_witness :
    create_vpc st0 effOk "v" "bad" "eth0" =
      ⟨st0, createVpcPlan1 ("br-" ++ "v"), .err .invalidBlock⟩ ∧
    add_subnet stA effOk "app1" "tiny" "10.0.1.0/32" "private" =
      ⟨stA, addSubnetPlan1 (subnetIds "app1" "tiny").1 (subnetIds "app1" "tiny").2.1
        (subnetIds "app1" "tiny").2.2 vpcA.bridge, .err .invalidBlock⟩ :=
  ⟨C5_theorem.1 st0 effOk "v" "bad" "eth0" (by decide) effOk_true (Or.inl (by decide)),
   C5_theorem.2 stA effOk vpcA "app1" "tiny" "10.0.1.0/32" "private" (by decide)
     effOk_true (Or.inr ⟨⟨167772416, 32⟩, by decide, by decide⟩)⟩

theorem create_vpc_abort (st : Store) (eff : Eff) (n cb ifc cmd : String)
    (h : (create_vpc st eff n cb ifc).result = .err (.directiveFailed cmd)) :
    (create_vpc st eff n cb ifc).store = st ∧
    (∃ d, (create_vpc st eff n cb ifc).issued.getLast? = some d ∧ d.cmd = cmd ∧
      d.check = true) ∧
    (create_vpc st eff n cb ifc).issued <+: (create_vpc st effOk n cb ifc).issued := by
  cases h0 : (alookup n st.vpcs).isSome with
  | true =>
    have he : create_vpc st eff n cb ifc = ⟨st, [], .err .alreadyExists⟩ := by
      simp [create_vpc, h0]
    rw [he] at h
    simp at h
  | false =>
    have hOkRun := runSeq_all_true effOk effOk_true
    cases hf1 : (runSeq eff 0 (createVpcPlan1 ("br-" ++ n))).2.2 with
    | some d =>
      have ho : create_vpc st eff n cb ifc =
          ⟨st, (runSeq eff 0 (createVpcPlan1 ("br-" ++ n))).1,
            .err (.directiveFailed d.cmd)⟩ := by
        simp [create_vpc, h0, hf1]
      obtain ⟨hch, hlast⟩ := runSeq_fail eff 0 _ d hf1
      rw [ho] at h ⊢
      have hcmd : d.cmd = cmd := by simpa using h
      refine ⟨rfl, ⟨d, hlast, hcmd, hch⟩, ?_⟩
      have hpre := runSeq_issued_isPrefix eff 0 (createVpcPlan1 ("br-" ++ n))
      cases hn2 : ipNetwork cb with
      | none =>
        have hok : create_vpc st effOk n cb ifc =
            ⟨st, createVpcPlan1 ("br-" ++ n), .err .invalidBlock⟩ := by
          simp [create_vpc, h0, hn2, hOkRun]
        rw [hok]
        exact hpre
      | some net =>
        cases hh : hostsGet net 0 with
        | none =>
          have hok : create_vpc st effOk n cb ifc =
              ⟨st, createVpcPlan1 ("br-" ++ n), .err .invalidBlock⟩ := by
            simp [create_vpc, h0, hn2, hh, hOkRun]
          rw [hok]
          exact hpre
        | some bip =>
          have hok : (create_vpc st effOk n cb ifc).issued =
              createVpcPlan1 ("br-" ++ n) ++
                createVpcPlan2 ("br-" ++ n) (ipStr bip) net.prefixLen := by
            simp [create_vpc, h0, hn2, hh, hOkRun]
          rw [hok]
          exact hpre.trans (List.prefix_append _ _)
    | none =>
      obtain ⟨he1, hi1⟩ := runSeq_none eff 0 _ hf1
      cases hn2 : ipNetwork cb with
      | none =>
        have ho : create_vpc st eff n cb ifc =
            ⟨st, (runSeq eff 0 (createVpcPlan1 ("br-" ++ n))).1, .err .invalidBlock⟩ := by
          simp [create_vpc, h0, hf1, hn2]
        rw [ho] at h
        simp at h
      | some net =>
        cases hh : hostsGet net 0 with
        | none =>
          have ho : create_vpc st eff n cb ifc =
              ⟨st, (runSeq eff 0 (createVpcPlan1 ("br-" ++ n))).1, .err .invalidBlock⟩ := by
            simp [create_vpc, h0, hf1, hn2, hh]
          rw [ho] at h
          simp at h
        | some bip =>
          cases hf2 : (runSeq eff (runSeq eff 0 (createVpcPlan1 ("br-" ++ n))).2.1
              (createVpcPlan2 ("br-" ++ n) (ipStr bip) net.prefixLen)).2.2 with
          | none =>
            have ho : (create_vpc st eff n cb ifc).result = .ok := by
              simp [create_vpc, h0, hf1, hn2, hh, hf2]
            rw [ho] at h
            cases h
          | some d =>
            have ho : create_vpc st eff n cb ifc =
                ⟨st, (runSeq eff 0 (createVpcPlan1 ("br-" ++ n))).1 ++
                   (runSeq eff (runSeq eff 0 (createVpcPlan1 ("br-" ++ n))).2.1
                     (createVpcPlan2 ("br-" ++ n) (ipStr bip) net.prefixLen)).1,
                 .err (.directiveFailed d.cmd)⟩ := by
              simp [create_vpc, h0, hf1, hn2, hh, hf2]
            obtain ⟨hch, hlast⟩ := runSeq_fail eff _ _ d hf2
            rw [ho] at h ⊢
            have hcmd : d.cmd = cmd := by simpa using h
            have hne : (runSeq eff (runSeq eff 0 (createVpcPlan1 ("br-" ++ n))).2.1
                (createVpcPlan2 ("br-" ++ n) (ipStr bip) net.prefixLen)).1 ≠ [] := by
              intro he
              rw [he] at hlast
              simp at hlast
            refine ⟨rfl, ⟨d, ?_, hcmd, hch⟩, ?_⟩
            · rw [List.getLast?_append_of_ne_nil _ hne]
              exact hlast
            · have hok : (create_vpc st effOk n cb ifc).issued =
                  createVpcPlan1 ("br-" ++ n) ++
                    createVpcPlan2 ("br-" ++ n) (ipStr bip) net.prefixLen := by
                simp [create_vpc, h0, hn2, hh, hOkRun]
              rw [hok, he1]
              exact isPrefix_append_both _ (runSeq_issued_isPrefix eff _ _)

theorem add_subnet_abort (st : Store) (eff : Eff) (v s cb ty cmd : String)
    (h : (add_subnet st eff v s cb ty).result = .err (.directiveFailed cmd)) :
    (add_subnet st eff v s cb ty).store = st ∧
    (∃ d, (add_subnet st eff v s cb ty).issued.getLast? = some d ∧ d.cmd = cmd ∧
      d.check = true) ∧
    (add_subnet st eff v s cb ty).issued <+: (add_subnet st effOk v s cb ty).issued := by
  cases hv : alookup v st.vpcs with
  | none =>
    have he : add_subnet st eff v s cb ty = ⟨st, [], .err .notFound⟩ := by
      simp [add_subnet, hv]
    rw [he] at h
    simp at h
  | some vpc =>
    have hOkRun := runSeq_all_true effOk effOk_true
    cases hf1 : (runSeq eff 0 (addSubnetPlan1 (subnetIds v s).1 (subnetIds v s).2.1
        (subnetIds v s).2.2 vpc.bridge)).2.2 with
    | some d =>
      have ho : add_subnet st eff v s cb ty =
          ⟨st, (runSeq eff 0 (addSubnetPlan1 (subnetIds v s).1 (subnetIds v s).2.1
              (subnetIds v s).2.2 vpc.bridge)).1, .err (.directiveFailed d.cmd)⟩ := by
        simp [add_subnet, hv, hf1]
      obtain ⟨hch, hlast⟩ := runSeq_fail eff 0 _ d hf1
      rw [ho] at h ⊢
      have hcmd : d.cmd = cmd := by simpa using h
      refine ⟨rfl, ⟨d, hlast, hcmd, hch⟩, ?_⟩
      have hpre := runSeq_issued_isPrefix eff 0 (addSubnetPlan1 (subnetIds v s).1
        (subnetIds v s).2.1 (subnetIds v s).2.2 vpc.bridge)
      cases hn2 : ipNetwork cb with
      | none =>
        have hok : (add_subnet st effOk v s cb ty).issued =
            addSubnetPlan1 (subnetIds v s).1 (subnetIds v s).2.1
              (subnetIds v s).2.2 vpc.bridge := by
          simp [add_subnet, hv, hn2, hOkRun]
        rw [hok]
        exact hpre
      | some net =>
        cases hh : planAddresses net with
        | none =>
          have hok : (add_subnet st effOk v s cb ty).issued =
              addSubnetPlan1 (subnetIds v s).1 (subnetIds v s).2.1
                (subnetIds v s).2.2 vpc.bridge := by
            simp [add_subnet, hv, hn2, hh, hOkRun]
          rw [hok]
          exact hpre
        | some addrs =>
          have hok : (add_subnet st effOk v s cb ty).issued =
              addSubnetPlan1 (subnetIds v s).1 (subnetIds v s).2.1
                  (subnetIds v s).2.2 vpc.bridge ++
                (addSubnetPlan2 (subnetIds v s).1 (subnetIds v s).2.2 vpc.bridge
                    (ipStr addrs.1) (ipStr addrs.2) net.prefixLen ++
                  (if ty = "public" then natPlan vpc cb else [])) := by
            simp [add_subnet, hv, hn2, hh, hOkRun]
          rw [hok]
          exact hpre.trans (List.prefix_append _ _)
    | none =>
      obtain ⟨he1, hi1⟩ := runSeq_none eff 0 _ hf1
      cases hn2 : ipNetwork cb with
      | none =>
        have ho : (add_subnet st eff v s cb ty).result = .err .invalidBlock := by
          simp [add_subnet, hv, hf1, hn2]
        rw [ho] at h
        simp at h
      | some net =>
        cases hh : planAddresses net with
        | none =>
          have ho : (add_subnet st eff v s cb ty).result = .err .invalidBlock := by
            simp [add_subnet, hv, hf1, hn2, hh]
          rw [ho] at h
          simp at h
        | some addrs =>
          cases hf2 : (runSeq eff (runSeq eff 0 (addSubnetPlan1 (subnetIds v s).1
              (subnetIds v s).2.1 (subnetIds v s).2.2 vpc.bridge)).2.1
              (addSubnetPlan2 (subnetIds v s).1 (subnetIds v s).2.2 vpc.bridge
                  (ipStr addrs.1) (ipStr addrs.2) net.prefixLen ++
                (if ty = "public" then natPlan vpc cb else []))).2.2 with
          | none =>
            have ho : (add_subnet st eff v s cb ty).result = .ok := by
              simp [add_subnet, hv, hf1, hn2, hh, hf2]
            rw [ho] at h
            cases h
          | some d =>
            have ho : add_subnet st eff v s cb ty =
                ⟨st, (runSeq eff 0 (addSubnetPlan1 (subnetIds v s).1
                    (subnetIds v s).2.1 (subnetIds v s).2.2 vpc.bridge)).1 ++
                  (runSeq eff (runSeq eff 0 (addSubnetPlan1 (subnetIds v s).1
                      (subnetIds v s).2.1 (subnetIds v s).2.2 vpc.bridge)).2.1
                    (addSubnetPlan2 (subnetIds v s).1 (subnetIds v s).2.2 vpc.bridge
                        (ipStr addrs.1) (ipStr addrs.2) net.prefixLen ++
                      (if ty = "public" then natPlan vpc cb else []))).1,
                 .err (.directiveFailed d.cmd)⟩ := by
              simp [add_subnet, hv, hf1, hn2, hh, hf2]
            obtain ⟨hch, hlast⟩ := runSeq_fail eff _ _ d hf2
            rw [ho] at h ⊢
            have hcmd : d.cmd = cmd := by simpa using h
            have hne : (runSeq eff (runSeq eff 0 (addSubnetPlan1 (subnetIds v s).1
                (subnetIds v s).2.1 (subnetIds v s).2.2 vpc.bridge)).2.1
                (addSubnetPlan2 (subnetIds v s).1 (subnetIds v s).2.2 vpc.bridge
                    (ipStr addrs.1) (ipStr addrs.2) net.prefixLen ++
                  (if ty = "public" then natPlan vpc cb else []))).1 ≠ [] := by
              intro he
              rw [he] at hlast
              simp at hlast
            refine ⟨rfl, ⟨d, ?_, hcmd, hch⟩, ?_⟩
            · rw [List.getLast?_append_of_ne_nil _ hne]
              exact hlast
            · have hok : (add_subnet st effOk v s cb ty).issued =
                  addSubnetPlan1 (subnetIds v s).1 (subnetIds v s).2.1
                      (subnetIds v s).2.2 vpc.bridge ++
                    (addSubnetPlan2 (subnetIds v s).1 (subnetIds v s).2.2 vpc.bridge
                        (ipStr addrs.1) (ipStr addrs.2) net.prefixLen ++
                      (if ty = "public" then natPlan vpc cb else [])) := by
                simp [add_subnet, hv, hn2, hh, hOkRun]
              rw [hok, he1]
              exact isPrefix_append_both _ (runSeq_issued_isPrefix eff _ _)

/-- C3: for the mutating operations `create_vpc` and `add_subnet`, whenever
the operation reports a failed abort-on-error directive, the store is
returned exactly as it was (the new record is not committed), the failing
directive is the LAST directive issued (so no further directive of the
operation follows it), and the issued sequence is a prefix of the sequence
the operation issues when every directive succeeds. -/
theorem C3_theorem :
    (∀ st eff n cb ifc cmd,
      (create_vpc st eff n cb ifc).result = .err (.directiveFailed cmd) →
      (create_vpc st eff n cb ifc).store = st ∧
      (∃ d, (create_vpc st eff n cb ifc).issued.getLast? = some d ∧ d.cmd = cmd ∧
        d.check = true) ∧
      (create_vpc st eff n cb ifc).issued <+: (create_vpc st effOk n cb ifc).issued) ∧
    (∀ st eff v s cb ty cmd,
      (add_subnet st eff v s cb ty).result = .err (.directiveFailed cmd) →
      (add_subnet st eff v s cb ty).store = st ∧
      (∃ d, (add_subnet st eff v s cb ty).issued.getLast? = some d ∧ d.cmd = cmd ∧
        d.check = true) ∧
      (add_subnet st eff v s cb ty).issued <+: (add_subnet st effOk v s cb ty).issued) :=
  ⟨fun st eff n cb ifc cmd h => create_vpc_abort st eff n cb ifc cmd h,
   fun st eff v s cb ty cmd h => add_subnet_abort st eff v s cb ty cmd h⟩

/-- C3 (witness): `create_vpc` under the effector failing the very first
directive aborts with that directive's command, leaves the store unchanged
and its issued list is a prefix of the all-success run. -/
theorem C3_witness :
    (create_vpc st0 effNone "v" "10.0.0.0/16" "eth0").store = st0 ∧
    (create_vpc st0 effNone "v" "10.0.0.0/16" "eth0").issued <+:
      (create_vpc st0 effOk "v" "10.0.0.0/16" "eth0").issued :=
  have h := C3_theorem.1 st0 effNone "v" "10.0.0.0/16" "eth0"
    "ip link add br-v type bridge" (by decide)
  ⟨h.1, h.2.2⟩

/-- C4: for every CIDR accepted by the parser whose block has at least two
usable host addresses, the Addressing Planner returns two addresses; for
whatever pair it returns: they are distinct, both usable (hence within the
block), in ascending order, the first is the least usable address and the
second is the least usable address other than the first.  Concretely, for
`10.0.1.0/24` the planner yields host address `10.0.1.1` and gateway
address `10.0.1.2`. -/
theorem C4_theorem :
    (∀ s n, ipNetwork s = some n → 2 ≤ usableCount n →
      (planAddresses n).isSome = true ∧
      ∀ a b, planAddresses n = some (a, b) →
        a ≠ b ∧ usable n a ∧ usable n b ∧ a < b ∧
        (∀ x, usable n x → a ≤ x) ∧ (∀ x, usable n x → x ≠ a → b ≤ x)) ∧
    ((ipNetwork "10.0.1.0/24").bind planAddresses).map
        (fun p => (ipStr p.1, ipStr p.2)) = some ("10.0.1.1", "10.0.1.2") := by
  constructor
  · intro s n hs h2
    have h0 : 0 < usableCount n := by omega
    have h1 : 1 < usableCount n := by omega
    constructor
    · simp [planAddresses, hostsGet, h0, h1]
    · intro a b hab
      by_cases hp : 31 ≤ n.prefixLen
      · simp [planAddresses, hostsGet, h0, h1, hp] at hab
        obtain ⟨ha, hb⟩ := hab
        have hS : usableCount n = 2 ^ (32 - n.prefixLen) := by
          simp [usableCount, hostSize, hp]
        have hz : 32 - n.prefixLen ≠ 0 := by
          intro hz
          rw [hS, hz, pow_zero] at h2
          omega
        have h32p : 32 - n.prefixLen = 1 := by omega
        have hsize : hostSize n = 2 := by rw [hostSize, h32p, pow_one]
        refine ⟨by omega, ⟨⟨by omega, by omega⟩, Or.inl hp⟩,
          ⟨⟨by omega, by omega⟩, Or.inl hp⟩, by omega, ?_, ?_⟩
        · intro x hx
          have := hx.1.1
          omega
        · intro x hx hxa
          have hx1 := hx.1.1
          have hx2 := hx.1.2
          rw [hsize] at hx2
          omega
      · simp [planAddresses, hostsGet, h0, h1, hp] at hab
        obtain ⟨ha, hb⟩ := hab
        have hS : usableCount n = 2 ^ (32 - n.prefixLen) - 2 := by
          simp [usableCount, hostSize, hp]
        have h4 : 4 ≤ 2 ^ (32 - n.prefixLen) := by
          rw [hS] at h2
          have h3 : 3 ≤ 2 ^ (32 - n.prefixLen) := by omega
          rcases Nat.lt_or_ge (2 ^ (32 - n.prefixLen)) 4 with hlt | hge
          · exfalso
            have he3 : 2 ^ (32 - n.prefixLen) = 3 := by omega
            have : ¬ 2 ∣ (3 : Nat) := by decide
            exact this (he3 ▸ dvd_pow_self 2 (by omega : 32 - n.prefixLen ≠ 0))
          · exact hge
        have hsize : hostSize n = 2 ^ (32 - n.prefixLen) := rfl
        refine ⟨by omega, ⟨⟨by omega, by omega⟩, Or.inr ⟨by omega, by omega⟩⟩,
          ⟨⟨by omega, by omega⟩, Or.inr ⟨by omega, by omega⟩⟩, by omega, ?_, ?_⟩
        · intro x hx
          obtain ⟨⟨hx1, hx2⟩, hx3⟩ := hx
          rcases hx3 with hx3 | ⟨hx4, hx5⟩
          · exact absurd hx3 hp
          · omega
        · intro x hx hxa
          obtain ⟨⟨hx1, hx2⟩, hx3⟩ := hx
          rcases hx3 with hx3 | ⟨hx4, hx5⟩
          · exact absurd hx3 hp
          · rw [hsize] at hx2
            omega
  · decide

/-- C4 (witness): the planner applied to the parsed `10.0.1.0/24` network
succeeds and its two addresses `10.0.1.1`/`10.0.1.2` are distinct, usable
and ascending. -/
theorem C4_witness :
    (planAddresses ⟨167772416, 24⟩).isSome = true ∧
    167772417 ≠ 167772418 ∧
    usable ⟨167772416, 24⟩ 167772417 ∧
    usable ⟨167772416, 24⟩ 167772418 ∧
    167772417 < 167772418 :=
  have h := C4_theorem.1 "10.0.1.0/24" ⟨167772416, 24⟩ (by decide) (by decide)
  have h2 := h.2 167772417 167772418 (by decide)
  ⟨h.1, h2.1, h2.2.1, h2.2.2.1, h2.2.2.2.1⟩

end Vpcctl
